import Mathlib

/-!
Shallow embedding of the legal-document forensics pipeline of this repository:
the document comparison engine (DocumentComparisonService), the PDF processor
(PdfProcessor), the legal-docs index (LegalDocsIndex) and the court-decision
field extraction (CourtDecisionService).  JavaScript strings are modelled as
Lean String (lists of characters); JavaScript numbers appearing in similarity
scores are modelled as rationals; fallible external capabilities (file system,
pdf-parse, tesseract OCR) are modelled as explicit oracle functions returning
Except values.
-/

/-- Models String.prototype.toLowerCase for the characters this repository
works with: ASCII letters and the basic Cyrillic uppercase range (U+0410 to
U+042F maps to U+0430 to U+044F). -/
def jsToLower (c : Char) : Char :=
  if 'А' ≤ c ∧ c ≤ 'Я' then Char.ofNat (c.toNat + 32) else c.toLower

/-- Levenshtein edit distance between two character lists, as computed by the
fastest-levenshtein package's distance function (insertions, deletions and
substitutions each of cost 1).  The inner recursion is structural in the
second list so that the definition reduces in the kernel. -/
def levAux (f : List Char → Nat) (x : Char) : List Char → Nat
  | [] => f [] + 1
  | y :: ys =>
      min (f (y :: ys) + 1)
        (min (levAux f x ys + 1) (f ys + (if x = y then 0 else 1)))

/-- Levenshtein edit distance (outer recursion, structural in the first list). -/
def lev : List Char → List Char → Nat
  | [], b => b.length
  | x :: xs, b => levAux (lev xs) x b

/-- Models Math.round(q * 100) / 100 from calculateTextSimilarity
(JavaScript Math.round is floor of the argument plus one half). -/
def round2 (q : ℚ) : ℚ := (⌊q * 100 + 1 / 2⌋ : ℤ) / 100

/-- DocumentComparisonService.calculateTextSimilarity: returns 0 when either
input is empty, otherwise the percentage (maxLength - distance) / maxLength
* 100 rounded to two decimal places. -/
def calculateTextSimilarity (text1 text2 : String) : ℚ :=
  if text1.length = 0 ∨ text2.length = 0 then 0
  else
    let maxLength : Nat := max text1.length text2.length
    let distance : Nat := lev text1.data text2.data
    round2 (((maxLength : ℚ) - (distance : ℚ)) / (maxLength : ℚ) * 100)

/-- Basic facts used below: lev of the empty list on the right. -/
theorem lev_nil_right (a : List Char) : lev a [] = a.length := by
  cases a with
  | nil => rfl
  | cons x xs => simp [lev, levAux, lev_nil_right xs]

theorem lev_cons_cons (x y : Char) (xs ys : List Char) :
    lev (x :: xs) (y :: ys) =
      min (lev xs (y :: ys) + 1)
        (min (lev (x :: xs) ys + 1) (lev xs ys + (if x = y then 0 else 1))) := by
  rfl

/-- The distance from a list to itself is zero. -/
theorem lev_self (a : List Char) : lev a a = 0 := by
  induction a with
  | nil => rfl
  | cons x xs ih =>
      rw [lev_cons_cons]
      simp [ih]

/-- The Levenshtein distance is symmetric. -/
theorem lev_symm (a : List Char) : ∀ b : List Char, lev a b = lev b a := by
  induction a with
  | nil => intro b; rw [lev_nil_right]; rfl
  | cons x xs ih1 =>
      intro b
      induction b with
      | nil => rw [lev_nil_right]; rfl
      | cons y ys ih2 =>
          rw [lev_cons_cons, lev_cons_cons, ih1 (y :: ys), ih1 ys, ih2]
          have hc : (if x = y then 0 else 1) = (if y = x then 0 else 1) := by
            by_cases h : x = y <;> simp [h, Ne.symm, eq_comm]
          rw [hc]
          omega

theorem dropWhile_length_le (p : Char → Bool) (l : List Char) :
    (l.dropWhile p).length ≤ l.length := by
  induction l with
  | nil => simp
  | cons c cs ih =>
      by_cases h : p c
      · simp only [List.dropWhile_cons, h, if_true]
        exact Nat.le_succ_of_le ih
      · simp [List.dropWhile_cons, h]

/-- One maximal run of JavaScript whitespace is replaced by a single space:
models text.replace of the whitespace-run regex with a single space inside
normalizeText. -/
def collapseWs : List Char → List Char
  | [] => []
  | c :: cs =>
      if c.isWhitespace then ' ' :: collapseWs (cs.dropWhile Char.isWhitespace)
      else c :: collapseWs cs
termination_by l => l.length
decreasing_by
  · exact Nat.lt_succ_of_le (dropWhile_length_le _ _)
  · simp

/-- The punctuation class removed by normalizeText. -/
def isRemovedPunct (c : Char) : Bool :=
  c == '.' || c == ',' || c == ';' || c == ':' || c == '!' || c == '?' ||
    c == '(' || c == ')'

/-- Models String.prototype.trim. -/
def jsTrim (s : List Char) : List Char :=
  ((s.dropWhile Char.isWhitespace).reverse.dropWhile Char.isWhitespace).reverse

/-- DocumentComparisonService.normalizeText: lowercase, collapse whitespace
runs to single spaces, strip the punctuation class, trim. -/
def normalizeText (text : String) : String :=
  String.mk
    (jsTrim ((collapseWs (text.data.map jsToLower)).filter
      (fun c => !isRemovedPunct c)))

/-- Case-insensitive literal match: consumes the literal from the front of the
second list (comparing lowercased characters) and returns the remainder. -/
def matchLitCi : List Char → List Char → Option (List Char)
  | [], s => some s
  | _ :: _, [] => none
  | p :: ps, c :: cs =>
      if jsToLower c = jsToLower p then matchLitCi ps cs else none

theorem matchLitCi_length (p : List Char) :
    ∀ s r : List Char, matchLitCi p s = some r → r.length + p.length = s.length := by
  induction p with
  | nil => intro s r h; simp [matchLitCi] at h; simp [h]
  | cons x xs ih =>
      intro s r h
      cases s with
      | nil => simp [matchLitCi] at h
      | cons c cs =>
          by_cases hc : jsToLower c = jsToLower x
          · simp [matchLitCi, hc] at h
            have := ih cs r h
            simp [List.length_cons]
            omega
          · simp [matchLitCi, hc] at h

/-- Models String.prototype.replace with a global case-insensitive literal
regex and an empty replacement: scans left to right, removing every
non-overlapping occurrence of the pattern. -/
def removeAllCi (pat : List Char) : List Char → List Char
  | [] => []
  | c :: cs =>
      match h : matchLitCi pat (c :: cs) with
      | some rest =>
          if hp : pat.isEmpty then c :: removeAllCi pat cs
          else removeAllCi pat rest
      | none => c :: removeAllCi pat cs
termination_by l => l.length
decreasing_by
  · simp
  · have hlen := matchLitCi_length pat _ _ h
    have hp' : pat.length ≠ 0 := by
      cases pat with
      | nil => simp [List.isEmpty] at hp
      | cons a as => simp
    simp only [List.length_cons] at hlen ⊢
    omega
  · simp

/-- The eight standard legal boilerplate phrases excluded from similarity
scoring (LEGAL_TEMPLATES in DocumentComparisonService). -/
def LEGAL_TEMPLATES : List String :=
  ["в соответствии со статьей",
   "руководствуясь статьей",
   "на основании изложенного",
   "установлено следующее",
   "принимая во внимание",
   "учитывая изложенное",
   "в судебном заседании",
   "выслушав участников"]

/-- DocumentComparisonService.removeTemplates: removes every template phrase
case-insensitively, one template after the other. -/
def removeTemplates (text : String) : String :=
  LEGAL_TEMPLATES.foldl
    (fun cleaned template => String.mk (removeAllCi template.data cleaned.data))
    text

/-- Sentence-terminal punctuation class of findMatchedFragments. -/
def isSentEnd (c : Char) : Bool := c == '.' || c == '!' || c == '?'

/-- Models String.prototype.split on the regex matching one sentence-terminal
punctuation character followed by at least one whitespace character; the
separator (punctuation and whitespace) is consumed. -/
def splitSent (acc : List Char) : List Char → List (List Char)
  | [] => [acc.reverse]
  | c :: cs =>
      if isSentEnd c &&
          (match cs with
           | d :: _ => d.isWhitespace
           | [] => false) then
        acc.reverse :: splitSent [] (cs.dropWhile Char.isWhitespace)
      else splitSent (c :: acc) cs
termination_by l => l.length
decreasing_by
  · exact Nat.lt_succ_of_le (dropWhile_length_le _ _)
  · simp

/-- A matched fragment as produced by findMatchedFragments: the sentence text
from the first document and approximate character offsets into both sources. -/
structure Fragment where
  text : String
  position1 : Nat × Nat
  position2 : Nat × Nat
  deriving Repr, DecidableEq

/-- Inner loop of findMatchedFragments over the sentences of the second
document, tracking the running offset pos2 (each skipped or compared sentence
advances the offset by its length plus a fixed delimiter width of 2). -/
def fragLoop2 (sentence1 : List Char) (pos1 minLength : Nat) :
    List (List Char) → Nat → List Fragment
  | [], _ => []
  | s2 :: rest, pos2 =>
      if s2.length < minLength then
        fragLoop2 sentence1 pos1 minLength rest (pos2 + s2.length + 2)
      else
        let n1 := normalizeText (String.mk sentence1)
        let n2 := normalizeText (String.mk s2)
        let similarity := calculateTextSimilarity n1 n2
        (if similarity > 80 then
          [⟨String.mk sentence1, (pos1, pos1 + sentence1.length),
            (pos2, pos2 + s2.length)⟩]
         else []) ++
          fragLoop2 sentence1 pos1 minLength rest (pos2 + s2.length + 2)

/-- Outer loop of findMatchedFragments over the sentences of the first
document. -/
def fragLoop1 (minLength : Nat) (sentences2 : List (List Char)) :
    List (List Char) → Nat → List Fragment
  | [], _ => []
  | s1 :: rest, pos1 =>
      if s1.length < minLength then
        fragLoop1 minLength sentences2 rest (pos1 + s1.length + 2)
      else
        fragLoop2 s1 pos1 minLength sentences2 0 ++
          fragLoop1 minLength sentences2 rest (pos1 + s1.length + 2)

/-- DocumentComparisonService.findMatchedFragments: splits both texts into
sentences and emits a fragment for every cross pair of sufficiently long
sentences whose normalized similarity exceeds 80 percent. -/
def findMatchedFragments (text1 text2 : String) (minLength : Nat) :
    List Fragment :=
  fragLoop1 minLength (splitSent [] text2.data) (splitSent [] text1.data) 0

/-- ComparisonOptions from DocumentComparisonService. -/
structure ComparisonOptions where
  minMatchLength : Nat
  suspiciousTextThreshold : ℚ
  suspiciousVisualThreshold : ℚ
  useMultimodal : Bool
  ignoreTemplates : Bool

/-- One input document of compareDocuments. -/
structure DocInput where
  volumeNumber : Int
  pageRange : Int × Int
  text : String
  author : String
  pdfPath : Option String

/-- The document reference stored into a DocumentComparison record. -/
structure DocRef where
  volumeNumber : Int
  pageRange : Int × Int
  text : String
  author : String

/-- Presence of the optional constructor dependencies of
DocumentComparisonService (multimodal model and pdf processor). -/
structure ComparisonEnv where
  hasPdfProcessor : Bool
  hasMultimodalModel : Bool

/-- The DocumentComparison record produced by compareDocuments. -/
structure DocumentComparison where
  id : String
  document1 : DocRef
  document2 : DocRef
  textSimilarity : ℚ
  visualSimilarity : Option ℚ
  matchedFragments : List Fragment
  isSuspicious : Bool
  suspiciousReason : Option String
  humanReview : String

/-- DocumentComparisonService.determineSuspiciousness: true when the text
similarity reaches the text threshold, or the visual similarity is defined and
reaches the visual threshold, or at least five fragments matched. -/
def determineSuspiciousness (textSimilarity : ℚ) (visualSimilarity : Option ℚ)
    (matchedFragmentsCount : Nat) (options : ComparisonOptions) : Bool :=
  if textSimilarity ≥ options.suspiciousTextThreshold then true
  else if visualSimilarity.any
      (fun v => decide (v ≥ options.suspiciousVisualThreshold)) then true
  else if matchedFragmentsCount ≥ 5 then true
  else false

/-- Models Number.prototype.toFixed(1) for the nonnegative scores printed in
the generated messages. -/
def qToFixed1 (q : ℚ) : String :=
  let n : ℤ := ⌊q * 10 + 1 / 2⌋
  toString (n / 10) ++ "." ++ toString (n % 10)

/-- DocumentComparisonService.generateSuspiciousReason.  The visual branch
follows the JavaScript truthiness test, so a visual similarity of 0 does not
contribute a reason. -/
def generateSuspiciousReason (textSimilarity : ℚ) (visualSimilarity : Option ℚ)
    (matchedFragmentsCount : Nat) (author1 author2 : String) : Option String :=
  let reasons : List String :=
    (if textSimilarity ≥ 70 then
      ["Высокое текстовое совпадение: " ++ qToFixed1 textSimilarity ++ "%"]
     else []) ++
    (match visualSimilarity with
     | some v =>
         if v ≠ 0 ∧ v ≥ 70 then
           ["Высокое визуальное совпадение: " ++ qToFixed1 v ++ "%"]
         else []
     | none => []) ++
    (if matchedFragmentsCount ≥ 5 then
      ["Обнаружено " ++ toString matchedFragmentsCount ++
        " совпадающих фрагментов"]
     else [])
  if reasons.isEmpty then none
  else
    some ("Возможно копирование документа " ++ author1 ++ " документом " ++
      author2 ++ ". " ++ String.intercalate (". ") reasons ++ ".")

/-- DocumentComparisonService.generateHumanReview: the tiered recommendation
message. -/
def generateHumanReview (isSuspicious : Bool) (textSimilarity : ℚ)
    (matchedFragmentsCount : Nat) (author1 author2 : String) : String :=
  if !isSuspicious then
    "Документы имеют достаточные различия. Рутинная проверка."
  else if textSimilarity ≥ 90 then
    "⚠️ КРИТИЧНО: Почти полное копирование! Документ " ++ author2 ++
      " практически идентичен документу " ++ author1 ++
      ". Это может свидетельствовать о формальном подходе и отсутствии независимой проверки. Рекомендуется тщательное изучение обоих документов и выяснение обстоятельств их составления."
  else if textSimilarity ≥ 70 then
    "⚠️ ВНИМАНИЕ: Высокая степень совпадения (" ++ qToFixed1 textSimilarity ++
      "%). Документ " ++ author2 ++
      " содержит значительные заимствования из документа " ++ author1 ++
      ". Рекомендуется проверить, выполнил ли " ++ author2 ++
      " свою работу независимо или просто скопировал выводы " ++ author1 ++ "."
  else if matchedFragmentsCount ≥ 10 then
    "⚠️ ВНИМАНИЕ: Обнаружено " ++ toString matchedFragmentsCount ++
      " совпадающих фрагментов между документами. Это может указывать на систематическое копирование. Требуется внимательная проверка."
  else
    "⚠️ Обнаружены подозрительные совпадения между документами " ++ author1 ++
      " и " ++ author2 ++ ". Рекомендуется ручная проверка."

/-- JavaScript truthiness of an optional string (undefined and the empty
string are falsy). -/
def strTruthy : Option String → Bool
  | some s => !s.isEmpty
  | none => false

/-- DocumentComparisonService.compareVisually: when the pdf processor or the
multimodal model is missing it returns 0; otherwise the body is an explicit
temporary stub that also returns 0 (the model call is commented out in the
source), and its catch handler returns 0 as well. -/
def compareVisually (env : ComparisonEnv) : ℚ := 0

/-- DocumentComparisonService.compareDocuments: template stripping,
normalization, document-level similarity, fragment matching, optional visual
comparison, suspiciousness verdict, reason and review generation. -/
def compareDocuments (env : ComparisonEnv) (doc1 doc2 : DocInput)
    (options : ComparisonOptions) : DocumentComparison :=
  let comparisonId :=
    toString doc1.volumeNumber ++ "_" ++ toString doc1.pageRange.1 ++
      "_vs_" ++ toString doc2.volumeNumber ++ "_" ++ toString doc2.pageRange.1
  let text1 := if options.ignoreTemplates then removeTemplates doc1.text else doc1.text
  let text2 := if options.ignoreTemplates then removeTemplates doc2.text else doc2.text
  let normalized1 := normalizeText text1
  let normalized2 := normalizeText text2
  let textSimilarity := calculateTextSimilarity normalized1 normalized2
  let matchedFragments := findMatchedFragments text1 text2 options.minMatchLength
  let visualSimilarity : Option ℚ :=
    if options.useMultimodal && strTruthy doc1.pdfPath && strTruthy doc2.pdfPath
        && env.hasPdfProcessor && env.hasMultimodalModel then
      some (compareVisually env)
    else none
  let isSuspicious :=
    determineSuspiciousness textSimilarity visualSimilarity
      matchedFragments.length options
  let suspiciousReason :=
    generateSuspiciousReason textSimilarity visualSimilarity
      matchedFragments.length doc1.author doc2.author
  let humanReview :=
    generateHumanReview isSuspicious textSimilarity matchedFragments.length
      doc1.author doc2.author
  { id := comparisonId
    document1 := ⟨doc1.volumeNumber, doc1.pageRange, doc1.text, doc1.author⟩
    document2 := ⟨doc2.volumeNumber, doc2.pageRange, doc2.text, doc2.author⟩
    textSimilarity := textSimilarity
    visualSimilarity := visualSimilarity
    matchedFragments := matchedFragments
    isSuspicious := isSuspicious
    suspiciousReason := suspiciousReason
    humanReview := humanReview }

/-- Models path.basename(filePath, dotPdf): the part after the last slash,
with a trailing ".pdf" removed when present (exact, case-sensitive match, as
in node's path.basename). -/
def basenameNoPdf (filePath : String) : List Char :=
  let base := (filePath.data.reverse.takeWhile (fun c => c ≠ '/')).reverse
  if base.reverse.take 4 = ['f', 'd', 'p', '.'] then base.take (base.length - 4)
  else base

/-- The separator class between the volume token and its digits in the
volume-number regex. -/
def isVolSep (c : Char) : Bool := c == '_' || c.isWhitespace || c == '-'

/-- Numeric value of a list of decimal digits, as parseInt with radix 10 on a
digits-only capture. -/
def digitsToNat (ds : List Char) : Nat :=
  ds.foldl (fun n c => n * 10 + (c.toNat - 48)) 0

/-- First alternative of the volume-number regex at the current position: the
token том (case-insensitive), optional separators, then at least one digit;
returns the captured digits. -/
def tryVolAlt1 (s : List Char) : Option (List Char) :=
  match matchLitCi ['т', 'о', 'м'] s with
  | none => none
  | some rest =>
      let ds := (rest.dropWhile isVolSep).takeWhile Char.isDigit
      if ds.isEmpty then none else some ds

/-- Second alternative: the token volume (case-insensitive), optional
separators, then at least one digit. -/
def tryVolAlt2 (s : List Char) : Option (List Char) :=
  match matchLitCi ['v', 'o', 'l', 'u', 'm', 'e'] s with
  | none => none
  | some rest =>
      let ds := (rest.dropWhile isVolSep).takeWhile Char.isDigit
      if ds.isEmpty then none else some ds

/-- Third alternative: a bare digit run at the current position. -/
def tryVolAlt3 (s : List Char) : Option (List Char) :=
  let ds := s.takeWhile Char.isDigit
  if ds.isEmpty then none else some ds

/-- Regex search semantics of basename.match on the volume-number alternation:
positions are scanned left to right and at each position the three
alternatives are tried in order. -/
def findVolMatch : List Char → Option (List Char)
  | [] => none
  | c :: cs =>
      match tryVolAlt1 (c :: cs) with
      | some ds => some ds
      | none =>
          match tryVolAlt2 (c :: cs) with
          | some ds => some ds
          | none =>
              match tryVolAlt3 (c :: cs) with
              | some ds => some ds
              | none => findVolMatch cs

/-- PdfProcessor.extractVolumeNumber: the number captured by matching the
alternation of a том-prefixed number, a volume-prefixed number and a bare
digit run against the basename, or 0 when nothing matches. -/
def extractVolumeNumber (filePath : String) : Nat :=
  match findVolMatch (basenameNoPdf filePath) with
  | some ds => digitsToNat ds
  | none => 0

/-- Written from the claim wording, for comparison with the source semantics:
first a том-prefixed number anywhere in the basename, then a volume-prefixed
number anywhere, then any digit run anywhere, each alternative exhausted over
the whole filename before the next is tried. -/
def claimVolumeNumber (filePath : String) : Nat :=
  let base := basenameNoPdf filePath
  let rec findFirst (t : List Char → Option (List Char)) :
      List Char → Option (List Char)
    | [] => none
    | c :: cs =>
        match t (c :: cs) with
        | some ds => some ds
        | none => findFirst t cs
  match findFirst tryVolAlt1 base with
  | some ds => digitsToNat ds
  | none =>
      match findFirst tryVolAlt2 base with
      | some ds => digitsToNat ds
      | none =>
          match findFirst tryVolAlt3 base with
          | some ds => digitsToNat ds
          | none => 0

/-- The shared capture of the case-number patterns: one digit run, a dash or
slash, another digit run; returns the matched characters and the remainder. -/
def matchDigitsPair (s : List Char) : Option (List Char × List Char) :=
  let d1 := s.takeWhile Char.isDigit
  if d1.isEmpty then none
  else
    match s.dropWhile Char.isDigit with
    | sep :: rest =>
        if sep == '-' || sep == '/' then
          let d2 := rest.takeWhile Char.isDigit
          if d2.isEmpty then none
          else some (d1 ++ sep :: d2, rest.dropWhile Char.isDigit)
        else none
    | [] => none

/-- First case-number pattern at the current position: дело, optional
whitespace, an optional № sign, optional whitespace, then the digits pair;
returns the full matched text. -/
def matchPat1 (s : List Char) : Option (List Char) :=
  match matchLitCi ['д', 'е', 'л', 'о'] s with
  | none => none
  | some r0 =>
      let r1 := r0.dropWhile Char.isWhitespace
      let r2 := match r1 with
                | '№' :: t => t
                | _ => r1
      let r3 := r2.dropWhile Char.isWhitespace
      match matchDigitsPair r3 with
      | some (dp, _) => some (s.take (s.length - r3.length + dp.length))
      | none => none

/-- Second case-number pattern: a № sign, optional whitespace, the digits
pair. -/
def matchPat2 (s : List Char) : Option (List Char) :=
  match s with
  | '№' :: r0 =>
      let r1 := r0.dropWhile Char.isWhitespace
      match matchDigitsPair r1 with
      | some (dp, _) => some (s.take (s.length - r1.length + dp.length))
      | none => none
  | _ => none

/-- Third case-number pattern: the digits pair, optional whitespace, and the
literal года. -/
def matchPat3 (s : List Char) : Option (List Char) :=
  match matchDigitsPair s with
  | none => none
  | some (_, rest) =>
      let restw := rest.dropWhile Char.isWhitespace
      match matchLitCi ['г', 'о', 'д', 'а'] restw with
      | some _ => some (s.take (s.length - restw.length + 4))
      | none => none

/-- Fourth case-number pattern: уголовное, whitespace, дело, optional
whitespace, an optional № sign, optional whitespace, then the digits pair. -/
def matchPat4 (s : List Char) : Option (List Char) :=
  match matchLitCi ['у', 'г', 'о', 'л', 'о', 'в', 'н', 'о', 'е'] s with
  | none => none
  | some q0 =>
      let q1 := q0.dropWhile Char.isWhitespace
      match matchLitCi ['д', 'е', 'л', 'о'] q1 with
      | none => none
      | some r0 =>
          let r1 := r0.dropWhile Char.isWhitespace
          let r2 := match r1 with
                    | '№' :: t => t
                    | _ => r1
          let r3 := r2.dropWhile Char.isWhitespace
          match matchDigitsPair r3 with
          | some (dp, _) => some (s.take (s.length - r3.length + dp.length))
          | none => none

/-- All matches of a pattern, scanning positions left to right and continuing
after each match: the array produced by String.prototype.match with a global
regex (an array of full-match strings, without capture groups).  The fuel
argument is instantiated with the string length, which bounds the number of
scanning steps. -/
def scanAll (matcher : List Char → Option (List Char)) :
    Nat → List Char → List (List Char)
  | 0, _ => []
  | _ + 1, [] => []
  | fuel + 1, c :: cs =>
      match matcher (c :: cs) with
      | some m => m :: scanAll matcher fuel (List.drop m.length (c :: cs))
      | none => scanAll matcher fuel cs

/-- String.prototype.match with a global regex, restricted to the pattern
shapes used by the case-number cascade. -/
def jsMatchAll (matcher : List Char → Option (List Char)) (s : List Char) :
    List (List Char) :=
  scanAll matcher s.length s

/-- The pattern cascade of CourtDecisionService.extractCaseNumber.  Because
every pattern carries the global flag, text.match returns the array of full
matches without capture groups, so the source expression match[1] denotes the
second full match when two or more matches exist and undefined otherwise. -/
def extractCaseNumberGo (text : List Char) :
    List (List Char → Option (List Char)) → Option String
  | [] => none
  | m :: rest =>
      let all := jsMatchAll m text
      if all.isEmpty then extractCaseNumberGo text rest
      else (all[1]?).map String.mk

/-- CourtDecisionService.extractCaseNumber. -/
def extractCaseNumber (text : String) : Option String :=
  extractCaseNumberGo text.data [matchPat1, matchPat2, matchPat3, matchPat4]

/-- The OCRResult record returned by PdfProcessor.extractTextFromPage.  The
processingTime field of the source is wall-clock time and is not modelled;
absent warnings are modelled as the empty list. -/
structure OCRResult where
  text : String
  confidence : ℚ
  language : String
  warnings : List String
  deriving Repr, DecidableEq

/-- The external capabilities consumed by PdfProcessor.extractTextFromPage,
as deterministic oracles: page-targeted text extraction via pdf-parse,
rasterization via pdf2pic, and tesseract OCR returning text and a native
confidence between 0 and 100.  A thrown exception is an error value. -/
structure PdfEnv where
  readPdfTextAtPage : String → Nat → Except String String
  rasterize : String → Nat → Except String String
  ocrRecognize : String → Except String (String × ℚ)

/-- PdfProcessor.getCacheKey hashes the string path:page with md5; the hash is
modelled as the hashed payload itself (md5 is assumed collision-free). -/
def getCacheKey (pdfPath : String) (pageNumber : Nat) : String :=
  pdfPath ++ ":" ++ toString pageNumber

/-- The on-disk text cache of PdfProcessor, newest entry first. -/
abbrev TextCache := List (String × String)

/-- The try block of extractTextFromPage on a cache miss: direct text-layer
extraction; when the trimmed text is shorter than 50 characters and OCR is
enabled, rasterize the page and run OCR, scaling the native confidence from
the 0 to 100 range down to 0 to 1; any step may fail. -/
def extractBody (env : PdfEnv) (pdfPath : String) (pageNumber : Nat)
    (useOcr : Bool) : Except String (String × ℚ) :=
  match env.readPdfTextAtPage pdfPath pageNumber with
  | .error e => .error e
  | .ok data =>
      if (jsTrim data.data).length < 50 ∧ useOcr = true then
        match env.rasterize pdfPath pageNumber with
        | .error e => .error e
        | .ok imagePath =>
            match env.ocrRecognize imagePath with
            | .error e => .error e
            | .ok (t, conf) => .ok (t, conf / 100)
      else .ok (data, 1)

/-- PdfProcessor.extractTextFromPage: on a cache hit returns the cached text
with confidence fixed at 1.0; on a miss runs the extraction body, writes the
resulting text to the cache on success, and on any failure returns empty text
with confidence 0 and a warning instead of throwing. -/
def extractTextFromPage (env : PdfEnv) (cache : TextCache) (pdfPath : String)
    (pageNumber : Nat) (useOcr : Bool) : OCRResult × TextCache :=
  let cacheKey := getCacheKey pdfPath pageNumber
  match List.lookup cacheKey cache with
  | some text => (⟨text, 1, "rus", []⟩, cache)
  | none =>
      match extractBody env pdfPath pageNumber useOcr with
      | .ok (text, confidence) =>
          (⟨text, confidence, "rus", []⟩, (cacheKey, text) :: cache)
      | .error e =>
          (⟨"", 0, "rus",
            ["Не удалось извлечь текст: " ++ e]⟩, cache)

/-- A row of the legal_volumes table (unique by file_path). -/
structure LegalVolume where
  volumeNumber : Nat
  filePath : String
  fileSize : Nat
  totalPages : Nat
  documentType : String
  indexingStatus : String
  indexingProgress : Nat
  deriving Repr, DecidableEq

/-- A row of the legal_pages table (unique by volume and page number). -/
structure LegalPageRow where
  volumeNumber : Nat
  pageNumber : Nat
  text : String
  deriving Repr, DecidableEq

/-- The persistent store owned by LegalDocsIndex: volume rows keyed by file
path and page rows keyed by volume and page number (newest entry first). -/
structure DbState where
  volumes : List (String × LegalVolume)
  pages : List ((Nat × Nat) × LegalPageRow)
  deriving Repr, DecidableEq

/-- LegalDocsIndex.saveVolume: INSERT OR REPLACE keyed by file_path. -/
def saveVolume (db : DbState) (v : LegalVolume) : DbState :=
  { db with volumes :=
      ((v.filePath, v) :: db.volumes.filter (fun p => p.1 != v.filePath)) }

/-- The UPDATE legal_volumes SET indexing_status statements of update(): a
no-op when no row has the given file path. -/
def setVolumeStatus (db : DbState) (filePath status : String) : DbState :=
  { db with volumes :=
      (db.volumes.map (fun p =>
        if p.1 = filePath then (p.1, { p.2 with indexingStatus := status })
        else p)) }

/-- LegalDocsIndex.savePage: INSERT OR REPLACE keyed by volume and page
number.  In the source this method exists but is never invoked by update(),
whose page-persistence step is an unimplemented TODO. -/
def savePage (db : DbState) (page : LegalPageRow) : DbState :=
  { db with pages :=
      (((page.volumeNumber, page.pageNumber), page) :: db.pages.filter
        (fun p => p.1 != (page.volumeNumber, page.pageNumber))) }

/-- The external effects consumed by one volume iteration of update():
metadata extraction (PdfProcessor.getVolumeMetadata) and the page-producing
traversal of PdfProcessor.processVolume; either may throw. -/
structure IndexEnv where
  getVolumeMetadata : String → Except String LegalVolume
  processVolumePages : LegalVolume → Except String (List LegalPageRow)

/-- The body of one volume iteration after metadata succeeded and the volume
was found not yet completed: the volume row is saved, the processing
generator is drained, and the status is set to completed on success.  The
produced pages are discarded, mirroring the source, whose loop over the
generator only forwards progress messages and leaves page persistence as a
TODO. -/
def processFileCont (env : IndexEnv) (db : DbState) (pdfPath : String)
    (volume : LegalVolume) : DbState :=
  let db1 := saveVolume db volume
  match env.processVolumePages volume with
  | .ok _pages => setVolumeStatus db1 pdfPath ("completed")
  | .error _ => setVolumeStatus db1 pdfPath ("error")

/-- One iteration of the volume loop of LegalDocsIndex.update, including its
try/catch: a volume already marked completed is skipped, and any exception
(from metadata extraction or processing) sets the status to error and lets
the loop continue. -/
def processFile (env : IndexEnv) (db : DbState) (pdfPath : String) : DbState :=
  match env.getVolumeMetadata pdfPath with
  | .error _ => setVolumeStatus db pdfPath ("error")
  | .ok volume =>
      match List.lookup pdfPath db.volumes with
      | some existing =>
          if existing.indexingStatus = "completed" then db
          else processFileCont env db pdfPath volume
      | none => processFileCont env db pdfPath volume

/-- The volume loop of LegalDocsIndex.update over the discovered PDF files. -/
def updateRun (env : IndexEnv) (db : DbState) (files : List String) : DbState :=
  files.foldl (processFile env) db

/-- The indexing status stored for a file path, if a volume row exists. -/
def statusOf (db : DbState) (filePath : String) : Option String :=
  (List.lookup filePath db.volumes).map (fun v => v.indexingStatus)

theorem string_ne_empty_length (a : String) (ha : a ≠ "") : a.length ≠ 0 := by
  intro h0
  apply ha
  cases a with
  | mk data =>
      cases data with
      | nil => rfl
      | cons c cs => simp [String.length] at h0

/-- C9: for all strings a and b, the text-similarity score of
calculateTextSimilarity is symmetric. -/
theorem c9_textSimilarity_symm (a b : String) :
    calculateTextSimilarity a b = calculateTextSimilarity b a := by
  simp only [calculateTextSimilarity, lev_symm a.data b.data,
    Nat.max_comm a.length b.length, or_comm]

/-- C4: calculateTextSimilarity equals the two-decimal rounding of
(maxLen - editDistance) / maxLen * 100 when both inputs are nonempty, equals
0 when either input is empty, equals 100 on any nonempty string compared with
itself, and equals 0 when the first input is the empty string. -/
theorem c4_formula (a b x : String) :
    (¬(a.length = 0 ∨ b.length = 0) →
      calculateTextSimilarity a b =
        round2 ((((max a.length b.length : ℕ) : ℚ) - ((lev a.data b.data : ℕ) : ℚ)) /
          (((max a.length b.length : ℕ) : ℚ)) * 100)) ∧
    ((a.length = 0 ∨ b.length = 0) → calculateTextSimilarity a b = 0) ∧
    (a ≠ "" → calculateTextSimilarity a a = 100) ∧
    calculateTextSimilarity ("") x = 0 := by
  refine ⟨?_, ?_, ?_, ?_⟩
  · intro h
    simp [calculateTextSimilarity, h]
  · intro h
    simp [calculateTextSimilarity, h]
  · intro ha
    have hlen := string_ne_empty_length a ha
    have hq : ((a.length : ℚ)) ≠ 0 := by exact_mod_cast hlen
    simp [calculateTextSimilarity, hlen, lev_self, round2]
    have hfloor : ⌊(100 * 100 + 2⁻¹ : ℚ)⌋ = (10000 : ℤ) := by
      norm_num [Int.floor_eq_iff]
    rw [hfloor]
    norm_num
  · simp [calculateTextSimilarity]

theorem c4_formula_witness :
    (¬((("ab" : String)).length = 0 ∨ (("a" : String)).length = 0)) ∧
    calculateTextSimilarity ("ab") ("a") =
      round2 ((((max ("ab" : String).length ("a" : String).length : ℕ) : ℚ) -
          ((lev ("ab" : String).data ("a" : String).data : ℕ) : ℚ)) /
        (((max ("ab" : String).length ("a" : String).length : ℕ) : ℚ)) * 100) ∧
    (("ab" : String) ≠ "") ∧ calculateTextSimilarity ("ab") ("ab") = 100 :=
  ⟨by decide, (c4_formula ("ab") ("a") ("x")).1 (by decide), by decide,
    (c4_formula ("ab") ("a") ("x")).2.2.1 (by decide)⟩

theorem determineSuspiciousness_iff (t : ℚ) (vs : Option ℚ) (c : Nat)
    (o : ComparisonOptions) :
    determineSuspiciousness t vs c o = true ↔
      (t ≥ o.suspiciousTextThreshold ∨
        (∃ v, vs = some v ∧ v ≥ o.suspiciousVisualThreshold) ∨ c ≥ 5) := by
  cases vs <;> simp [determineSuspiciousness, Option.any] <;>
    split_ifs <;> simp_all

/-- C3: the suspiciousness verdict of compareDocuments is true exactly when
the text similarity reaches the configured text threshold, or the visual
similarity is present and reaches the configured visual threshold, or at
least five fragments matched (a fixed constant); in particular the verdict
is true whenever the text similarity reaches the text threshold. -/
theorem c3_verdict (env : ComparisonEnv) (d1 d2 : DocInput)
    (opts : ComparisonOptions) :
    (compareDocuments env d1 d2 opts).isSuspicious = true ↔
      ((compareDocuments env d1 d2 opts).textSimilarity ≥
          opts.suspiciousTextThreshold ∨
        (∃ v, (compareDocuments env d1 d2 opts).visualSimilarity = some v ∧
          v ≥ opts.suspiciousVisualThreshold) ∨
        (compareDocuments env d1 d2 opts).matchedFragments.length ≥ 5) := by
  have h : (compareDocuments env d1 d2 opts).isSuspicious =
      determineSuspiciousness (compareDocuments env d1 d2 opts).textSimilarity
        (compareDocuments env d1 d2 opts).visualSimilarity
        (compareDocuments env d1 d2 opts).matchedFragments.length opts := rfl
  rw [h]
  exact determineSuspiciousness_iff _ _ _ _

/-- C10: the id of the Comparison returned by compareDocuments depends only
on the two volume numbers and the two page-range starts; texts, authors,
options, page-range ends and the environment do not influence it. -/
theorem c10_id_only (env env' : ComparisonEnv) (d1 d2 d1' d2' : DocInput)
    (opts opts' : ComparisonOptions)
    (h1 : d1.volumeNumber = d1'.volumeNumber)
    (h2 : d1.pageRange.1 = d1'.pageRange.1)
    (h3 : d2.volumeNumber = d2'.volumeNumber)
    (h4 : d2.pageRange.1 = d2'.pageRange.1) :
    (compareDocuments env d1 d2 opts).id =
      (compareDocuments env' d1' d2' opts').id := by
  simp only [compareDocuments]
  rw [h1, h2, h3, h4]

def c10DocA1 : DocInput :=
  ⟨1, (5, 9), "Первый текст обвинения.", "Следователь", none⟩

def c10DocB1 : DocInput :=
  ⟨2, (3, 4), "Другой текст.", "Прокурор", none⟩

def c10DocA2 : DocInput :=
  ⟨1, (5, 20), "Совсем иной текст следствия!", "Иной автор", some ("/x.pdf")⟩

def c10DocB2 : DocInput :=
  ⟨2, (3, 8), "Ещё один непохожий текст?", "Судья", some ("/y.pdf")⟩

def c10Opts1 : ComparisonOptions := ⟨100, 70, 70, false, true⟩

def c10Opts2 : ComparisonOptions := ⟨10, 50, 60, true, false⟩

theorem c10_id_only_witness :
    c10DocA1.volumeNumber = c10DocA2.volumeNumber ∧
    c10DocA1.pageRange.1 = c10DocA2.pageRange.1 ∧
    c10DocB1.volumeNumber = c10DocB2.volumeNumber ∧
    c10DocB1.pageRange.1 = c10DocB2.pageRange.1 ∧
    c10DocA1.text ≠ c10DocA2.text ∧
    (compareDocuments ⟨false, false⟩ c10DocA1 c10DocB1 c10Opts1).id =
      (compareDocuments ⟨true, true⟩ c10DocA2 c10DocB2 c10Opts2).id :=
  ⟨rfl, rfl, rfl, rfl, by decide,
    c10_id_only ⟨false, false⟩ ⟨true, true⟩ c10DocA1 c10DocB1 c10DocA2 c10DocB2
      c10Opts1 c10Opts2 rfl rfl rfl rfl⟩

/-- C8 counterexample: the claimed priority order (том first, then volume,
then any digit run) fails on the filename 1_том_2.pdf, where the source
returns the earlier bare digit run 1 while the claimed priority would return
the том-prefixed 2. -/
theorem c8_counterexample_t :
    extractVolumeNumber ("1_том_2.pdf") = 1 ∧
      claimVolumeNumber ("1_том_2.pdf") = 2 := by
  decide

theorem matchLitCi_drop (p : List Char) :
    ∀ s r : List Char, matchLitCi p s = some r → r = s.drop p.length := by
  induction p with
  | nil => intro s r h; simp [matchLitCi] at h; simp [h]
  | cons x xs ih =>
      intro s r h
      cases s with
      | nil => simp [matchLitCi] at h
      | cons c cs =>
          by_cases hc : jsToLower c = jsToLower x
          · simp [matchLitCi, hc] at h
            simpa using ih cs r h
          · simp [matchLitCi, hc] at h

theorem all_of_sublist {p : Char → Bool} {s t : List Char}
    (hsub : List.Sublist t s) (h : s.all p) : t.all p := by
  rw [List.all_eq_true] at *
  intro x hx
  exact h x (hsub.subset hx)

theorem takeWhile_digits_nil {s : List Char}
    (h : s.all (fun c => !c.isDigit)) : s.takeWhile Char.isDigit = [] := by
  cases s with
  | nil => rfl
  | cons c cs =>
      simp [List.all_cons] at h
      simp [List.takeWhile_cons, h.1]

theorem tryVolAlt1_none {s : List Char}
    (h : s.all (fun c => !c.isDigit)) : tryVolAlt1 s = none := by
  unfold tryVolAlt1
  cases hm : matchLitCi ['т', 'о', 'м'] s with
  | none => rfl
  | some rest =>
      have hr : rest = s.drop 3 := matchLitCi_drop _ _ _ hm
      have hall : rest.all (fun c => !c.isDigit) :=
        hr ▸ all_of_sublist (List.drop_sublist _ _) h
      have hni : (rest.dropWhile isVolSep).takeWhile Char.isDigit = [] :=
        takeWhile_digits_nil (all_of_sublist (List.dropWhile_sublist _) hall)
      simp [hni]

theorem tryVolAlt2_none {s : List Char}
    (h : s.all (fun c => !c.isDigit)) : tryVolAlt2 s = none := by
  unfold tryVolAlt2
  cases hm : matchLitCi ['v', 'o', 'l', 'u', 'm', 'e'] s with
  | none => rfl
  | some rest =>
      have hr : rest = s.drop 6 := matchLitCi_drop _ _ _ hm
      have hall : rest.all (fun c => !c.isDigit) :=
        hr ▸ all_of_sublist (List.drop_sublist _ _) h
      have hni : (rest.dropWhile isVolSep).takeWhile Char.isDigit = [] :=
        takeWhile_digits_nil (all_of_sublist (List.dropWhile_sublist _) hall)
      simp [hni]

theorem tryVolAlt3_none {s : List Char}
    (h : s.all (fun c => !c.isDigit)) : tryVolAlt3 s = none := by
  unfold tryVolAlt3
  simp [takeWhile_digits_nil h]

theorem findVolMatch_none {s : List Char}
    (h : s.all (fun c => !c.isDigit)) : findVolMatch s = none := by
  induction s with
  | nil => rfl
  | cons c cs ih =>
      unfold findVolMatch
      rw [tryVolAlt1_none h, tryVolAlt2_none h, tryVolAlt3_none h]
      exact ih (all_of_sublist (List.sublist_cons_self c cs) h)

/-- C8 amended: the inferred volume number is the integer captured by the
leftmost match of the alternation (том-prefixed number, volume-prefixed
number, bare digit run, the alternatives tried in that order at each
position) in the basename, and 0 when the basename contains no digit at all;
in particular volume_7.pdf yields 7, дело_том_3.pdf yields 3, and in
1_том_2.pdf the earlier bare digit run wins over the later том token. -/
theorem c8_amended_t :
    extractVolumeNumber ("volume_7.pdf") = 7 ∧
    extractVolumeNumber ("дело_том_3.pdf") = 3 ∧
    extractVolumeNumber ("1_том_2.pdf") = 1 ∧
    (∀ p : String, (basenameNoPdf p).all (fun c => !c.isDigit) →
      extractVolumeNumber p = 0) := by
  refine ⟨by decide, by decide, by decide, ?_⟩
  intro p hp
  unfold extractVolumeNumber
  rw [findVolMatch_none hp]

theorem c8_amended_t_witness :
    (basenameNoPdf ("приговор.pdf")).all (fun c => !c.isDigit) = true ∧
    extractVolumeNumber ("приговор.pdf") = 0 :=
  ⟨by decide, c8_amended_t.2.2.2 ("приговор.pdf") (by decide)⟩

/-- C2: on the text case № 123/2024 the case-number extraction returns
undefined rather than the claimed 123/2024, because every pattern carries the
global regex flag, under which match returns full matches without capture
groups and the source expression match[1] denotes a nonexistent second
match. -/
theorem c2_bug_eval :
    extractCaseNumber ("case № 123/2024") = none ∧
      ¬ extractCaseNumber ("case № 123/2024") = some ("123/2024") := by
  decide

/-- C5: a cache hit returns the cached text with confidence exactly 1.0 and
an unchanged cache, and extracting the same path and page twice returns on
the second call text identical to the text returned by the first call. -/
theorem c5_cache_roundtrip (env : PdfEnv) (cache : TextCache) (path : String)
    (page : Nat) (useOcr : Bool) :
    (∀ t : String, List.lookup (getCacheKey path page) cache = some t →
      extractTextFromPage env cache path page useOcr = (⟨t, 1, "rus", []⟩, cache)) ∧
    (extractTextFromPage env
        (extractTextFromPage env cache path page useOcr).2 path page useOcr).1.text =
      (extractTextFromPage env cache path page useOcr).1.text := by
  constructor
  · intro t ht
    simp [extractTextFromPage, ht]
  · cases hl : List.lookup (getCacheKey path page) cache with
    | some t => simp [extractTextFromPage, hl]
    | none =>
        cases hb : extractBody env path page useOcr with
        | ok pr =>
            obtain ⟨t, c⟩ := pr
            simp [extractTextFromPage, hl, hb]
        | error e => simp [extractTextFromPage, hl, hb]

def sampleCacheEnv : PdfEnv :=
  ⟨fun _ _ => Except.ok (""), fun _ _ => Except.ok (""),
    fun _ => Except.ok ("", 0)⟩

theorem c5_cache_roundtrip_witness :
    List.lookup (getCacheKey ("/дело/том1.pdf") 3)
        [(getCacheKey ("/дело/том1.pdf") 3, "кэшированный текст")] =
      some ("кэшированный текст") ∧
    extractTextFromPage sampleCacheEnv
        [(getCacheKey ("/дело/том1.pdf") 3, "кэшированный текст")]
        ("/дело/том1.pdf") 3 true =
      (⟨"кэшированный текст", 1, "rus", []⟩,
        [(getCacheKey ("/дело/том1.pdf") 3, "кэшированный текст")]) :=
  ⟨by decide,
    (c5_cache_roundtrip sampleCacheEnv
        [(getCacheKey ("/дело/том1.pdf") 3, "кэшированный текст")]
        ("/дело/том1.pdf") 3 true).1 ("кэшированный текст") (by decide)⟩

/-- C7: when the cache misses and the extraction body fails, the result has
empty text, confidence 0 and a warning, and extractTextFromPage is a total
function that returns this result instead of propagating the exception. -/
theorem c7_failure_result (env : PdfEnv) (cache : TextCache) (path : String)
    (page : Nat) (useOcr : Bool) (e : String)
    (hmiss : List.lookup (getCacheKey path page) cache = none)
    (hfail : extractBody env path page useOcr = Except.error e) :
    (extractTextFromPage env cache path page useOcr).1 =
      ⟨"", 0, "rus", ["Не удалось извлечь текст: " ++ e]⟩ ∧
    (extractTextFromPage env cache path page useOcr).1.warnings ≠ [] := by
  simp [extractTextFromPage, hmiss, hfail]

def sampleFailEnv : PdfEnv :=
  ⟨fun _ _ => Except.error ("файл повреждён"),
    fun _ _ => Except.error ("файл повреждён"),
    fun _ => Except.error ("файл повреждён")⟩

theorem c7_failure_result_witness :
    List.lookup (getCacheKey ("/битый.pdf") 1) ([] : TextCache) = none ∧
    extractBody sampleFailEnv ("/битый.pdf") 1 true =
      Except.error ("файл повреждён") ∧
    (extractTextFromPage sampleFailEnv [] ("/битый.pdf") 1 true).1 =
      ⟨"", 0, "rus", ["Не удалось извлечь текст: файл повреждён"]⟩ :=
  ⟨by decide, by rfl,
    ((c7_failure_result sampleFailEnv [] ("/битый.pdf") 1 true
        ("файл повреждён") (by decide) (by rfl)).1)⟩

theorem statusOf_set_after_save (db : DbState) (v : LegalVolume)
    (st : String) :
    statusOf (setVolumeStatus (saveVolume db v) v.filePath st) v.filePath =
      some st := by
  have h1 : setVolumeStatus (saveVolume db v) v.filePath st =
      { volumes :=
          ((v.filePath, { v with indexingStatus := st }) ::
            ((db.volumes.filter (fun p => p.1 != v.filePath)).map
              (fun p => if p.1 = v.filePath then
                          (p.1, { p.2 with indexingStatus := st })
                        else p)))
        pages := db.pages } := by
    simp [setVolumeStatus, saveVolume]
  rw [h1]
  simp [statusOf, List.lookup]

/-- C6: when metadata extraction succeeds for a file whose volume is not yet
completed but processing it throws, the update run marks exactly that volume
as error and continues with the remaining discovered files unchanged. -/
theorem c6_failure_isolation (env : IndexEnv) (db : DbState)
    (pre post : List String) (f : String) (v : LegalVolume) (e : String)
    (hmeta : env.getVolumeMetadata f = Except.ok v)
    (hpath : v.filePath = f)
    (hproc : env.processVolumePages v = Except.error e)
    (hnc : statusOf (updateRun env db pre) f ≠ some ("completed")) :
    updateRun env db (pre ++ f :: post) =
      updateRun env (processFile env (updateRun env db pre) f) post ∧
    statusOf (processFile env (updateRun env db pre) f) f = some ("error") := by
  constructor
  · unfold updateRun
    rw [List.foldl_append]
    rfl
  · have hcont : processFile env (updateRun env db pre) f =
        processFileCont env (updateRun env db pre) f v := by
      unfold processFile
      rw [hmeta]
      cases hl : List.lookup f (updateRun env db pre).volumes with
      | none => rfl
      | some ex =>
          have hex : ex.indexingStatus ≠ "completed" := by
            intro hcomp
            apply hnc
            simp [statusOf, hl, hcomp]
          simp [hex]
    rw [hcont]
    unfold processFileCont
    rw [hproc, ← hpath]
    exact statusOf_set_after_save _ _ _

def c6VolA : LegalVolume := ⟨1, "/дела/a.pdf", 100, 1, "text", "pending", 0⟩

def c6VolB : LegalVolume := ⟨2, "/дела/b.pdf", 100, 1, "text", "pending", 0⟩

def c6VolC : LegalVolume := ⟨3, "/дела/c.pdf", 100, 1, "text", "pending", 0⟩

def c6Env : IndexEnv :=
  ⟨fun p =>
      if p = "/дела/a.pdf" then Except.ok c6VolA
      else if p = "/дела/b.pdf" then Except.ok c6VolB
      else if p = "/дела/c.pdf" then Except.ok c6VolC
      else Except.error ("нет файла"),
    fun v =>
      if v.filePath = "/дела/b.pdf" then Except.error ("повреждён")
      else Except.ok [⟨v.volumeNumber, 1, "текст"⟩]⟩

theorem c6_failure_isolation_witness :
    c6Env.getVolumeMetadata ("/дела/b.pdf") = Except.ok c6VolB ∧
    c6VolB.filePath = "/дела/b.pdf" ∧
    c6Env.processVolumePages c6VolB = Except.error ("повреждён") ∧
    statusOf (updateRun c6Env ⟨[], []⟩ ["/дела/a.pdf"]) ("/дела/b.pdf") ≠
      some ("completed") ∧
    updateRun c6Env ⟨[], []⟩ (["/дела/a.pdf"] ++ "/дела/b.pdf" :: ["/дела/c.pdf"]) =
      updateRun c6Env
        (processFile c6Env (updateRun c6Env ⟨[], []⟩ ["/дела/a.pdf"]) ("/дела/b.pdf"))
        ["/дела/c.pdf"] ∧
    statusOf
        (processFile c6Env (updateRun c6Env ⟨[], []⟩ ["/дела/a.pdf"]) ("/дела/b.pdf"))
        ("/дела/b.pdf") =
      some ("error") :=
  ⟨by rfl, rfl, by rfl, by decide,
    (c6_failure_isolation c6Env ⟨[], []⟩ ["/дела/a.pdf"] ["/дела/c.pdf"]
      ("/дела/b.pdf") c6VolB ("повреждён") (by rfl) rfl (by rfl) (by decide)).1,
    (c6_failure_isolation c6Env ⟨[], []⟩ ["/дела/a.pdf"] ["/дела/c.pdf"]
      ("/дела/b.pdf") c6VolB ("повреждён") (by rfl) rfl (by rfl) (by decide)).2⟩

theorem processFileCont_pages (env : IndexEnv) (db : DbState) (f : String)
    (v : LegalVolume) : (processFileCont env db f v).pages = db.pages := by
  unfold processFileCont
  cases env.processVolumePages v <;> simp [saveVolume, setVolumeStatus]

theorem processFile_pages (env : IndexEnv) (db : DbState) (f : String) :
    (processFile env db f).pages = db.pages := by
  unfold processFile
  cases env.getVolumeMetadata f with
  | error e => simp [setVolumeStatus]
  | ok v =>
      cases List.lookup f db.volumes with
      | none => exact processFileCont_pages env db f v
      | some ex =>
          by_cases hex : ex.indexingStatus = "completed"
          · simp [hex]
          · simp [hex, processFileCont_pages env db f v]

theorem updateRun_pages (env : IndexEnv) :
    ∀ (files : List String) (db : DbState),
      (updateRun env db files).pages = db.pages := by
  intro files
  induction files with
  | nil => intro db; rfl
  | cons f fs ih =>
      intro db
      have h1 : updateRun env db (f :: fs) =
          updateRun env (processFile env db f) fs := rfl
      rw [h1, ih, processFile_pages]

def c1Volume : LegalVolume :=
  ⟨1, "/дела/том_1.pdf", 1000, 2, "text", "pending", 0⟩

def c1Env : IndexEnv :=
  ⟨fun p => if p = "/дела/том_1.pdf" then Except.ok c1Volume
            else Except.error ("нет файла"),
    fun v => Except.ok
      [⟨v.volumeNumber, 1, "страница 1"⟩, ⟨v.volumeNumber, 2, "страница 2"⟩]⟩

/-- C1: the volume loop of update never persists any page row, in any run
over any environment, even though processing succeeds and the volume is
marked completed; the concrete run below processes a readable two-page
volume, ends with status completed, and leaves the pages table empty, the
page-persistence step of the source being an unimplemented TODO. -/
theorem c1_pages_not_persisted :
    (∀ (env : IndexEnv) (db : DbState) (files : List String),
      (updateRun env db files).pages = db.pages) ∧
    statusOf (updateRun c1Env ⟨[], []⟩ ["/дела/том_1.pdf"]) ("/дела/том_1.pdf") =
      some ("completed") ∧
    (updateRun c1Env ⟨[], []⟩ ["/дела/том_1.pdf"]).pages = [] := by
  refine ⟨fun env db files => updateRun_pages env files db, by decide, by decide⟩
